import Mathlib

/-!
Shallow embedding of the recommendation engine of `src/main.py` (Football
Live Analytics API): the heuristic probability model, the expected-value
calculator, the fractional-Kelly stake sizing and the rationale generator,
together with theorems checking the specification against it.

Python floats are idealised as exact rationals (respectively reals where
the logistic function appears), and `round(x, 3)` as exact half-up rounding
to 3 decimal places; exact decimal ties, where Python's float rounding
could differ, play no role in any property below.
-/

/-- The `momentum` literal type of `LiveStats` (src/main.py line 28). -/
inductive Momentum where
  | home
  | away
  | balanced
deriving DecidableEq

/-- `LiveStats` (src/main.py lines 17-29); integer fields are Python ints. -/
structure LiveStats where
  minute : ℤ
  score_home : ℤ
  score_away : ℤ
  shots_total : ℤ
  shots_box : ℤ
  shots_on : ℤ
  big_chances : ℤ
  corners : ℤ
  possession_home : ℤ
  possession_away : ℤ
  momentum : Momentum
  xg_sum : Option ℚ

/-- `OddsInput` (src/main.py lines 31-35); the `oneXtwo` field is never read
by the engine. -/
structure OddsInput where
  over25 : Option ℚ
  over05_ht : Option ℚ
  btts : Option ℚ
  oneXtwo : Option (List (String × ℚ))

/-- `sigmoid` (line 74): the logistic function. -/
noncomputable def sigmoid (x : ℝ) : ℝ := 1 / (1 + Real.exp (-x))

/-- The clamp `clip01` defined inside `heuristic_probs` (line 85), at the
rational type used for the three scalar markets. -/
def clip01 (x : ℚ) : ℚ := max 0.01 (min 0.95 x)

/-- The same clamp applied to the real-valued 1X2 entries. -/
noncomputable def clip01R (x : ℝ) : ℝ := max 0.01 (min 0.95 x)

/-- The raw over-2.5 score `over_raw` (line 77).  The Python condition
`s.xg_sum and s.xg_sum>=0.9` tests truthiness of `xg_sum` first, so an
`xg_sum` of exactly 0 is falsy; this is kept literally. -/
def over_raw (s : LiveStats) : ℚ :=
  0.30 + 0.02 * (s.shots_total : ℚ) + 0.04 * (s.shots_box : ℚ)
    + 0.08 * (s.big_chances : ℚ)
    + (match s.xg_sum with
       | some x => if x ≠ 0 ∧ 0.9 ≤ x then 0.20 else 0.0
       | none => 0.0)

/-- The raw first-half-goal score `goal_ht_raw` (line 78). -/
def goal_ht_raw (s : LiveStats) : ℚ :=
  0.15 + 0.03 * (s.shots_box : ℚ) + 0.03 * (s.corners : ℚ)
    + (if s.momentum ≠ Momentum.balanced then 0.07 else 0.0)

/-- The raw both-teams-to-score score `btts_raw` (line 79). -/
def btts_raw (s : LiveStats) : ℚ :=
  0.25 + 0.05 * (if s.momentum = Momentum.balanced then (1 : ℚ) else 0)
    + 0.02 * (s.shots_on : ℚ)

/-- Unnormalised home strength `p1` (line 80). -/
noncomputable def strength_home (s : LiveStats) : ℝ :=
  sigmoid (((s.possession_home : ℝ) - 50) / 10)

/-- Unnormalised away strength `p2` (line 81). -/
noncomputable def strength_away (s : LiveStats) : ℝ :=
  sigmoid (((s.possession_away : ℝ) - 50) / 10)

/-- The normalisation total `p1+p2+p_draw` (line 83), with `p_draw = 0.20`
(line 82). -/
noncomputable def oneXtwo_total (s : LiveStats) : ℝ :=
  strength_home s + strength_away s + 0.20

/-- Normalised home value `p1/total` (line 84), before clamping. -/
noncomputable def norm_home (s : LiveStats) : ℝ := strength_home s / oneXtwo_total s

/-- Normalised draw value `p_draw/total` (line 84), before clamping. -/
noncomputable def norm_draw (s : LiveStats) : ℝ := 0.20 / oneXtwo_total s

/-- Normalised away value `p2/total` (line 84), before clamping. -/
noncomputable def norm_away (s : LiveStats) : ℝ := strength_away s / oneXtwo_total s

/-- The dictionary returned by `heuristic_probs` (lines 86-91), with the
nested `oneXtwo` dict flattened into the three keyed fields. -/
structure HeuristicProbs where
  over25 : ℚ
  goal_ht : ℚ
  btts : ℚ
  oneXtwo_1 : ℝ
  oneXtwo_X : ℝ
  oneXtwo_2 : ℝ

/-- `heuristic_probs` (lines 76-91). -/
noncomputable def heuristic_probs (s : LiveStats) : HeuristicProbs where
  over25 := clip01 (over_raw s)
  goal_ht := clip01 (goal_ht_raw s)
  btts := clip01 (btts_raw s)
  oneXtwo_1 := clip01R (norm_home s)
  oneXtwo_X := clip01R (norm_draw s)
  oneXtwo_2 := clip01R (norm_away s)

/-- `ev` (lines 93-95). -/
def ev : Option ℚ → Option ℚ → Option ℚ
  | none, _ => none
  | _, none => none
  | some prob, some odds => some (prob * odds - 1)

/-- `kelly_fraction` (lines 97-101). -/
def kelly_fraction : Option ℚ → Option ℚ → ℚ
  | none, _ => 0.0
  | _, none => 0.0
  | some prob, some odds =>
    let b := odds - 1
    let edge := if 0 < b then prob - (1 - prob) / b else -1
    max 0.0 (min 0.5 (if 0 < b then edge / b else 0.0))

/-- Python `x or 0` on an optional float (lines 115-117): both `None` and
`0.0` are falsy and give `0`. -/
def orZero : Option ℚ → ℚ
  | none => 0
  | some x => if x = 0 then 0 else x

/-- Exact model of Python `round(x, 3)` on a rational value. -/
def round3 (x : ℚ) : ℚ := (round (1000 * x) : ℚ) / 1000

/-- Exact model of Python `round(x, 3)` on a real value. -/
noncomputable def round3R (x : ℝ) : ℝ := ((round (1000 * x) : ℤ) : ℝ) / 1000

/-- Rationale string of rule 1 (line 119). -/
def msg_over25 : String := "Volume e qualità alte per Over 2.5 (>=9 tiri, >=5 in area)."

/-- Rationale string of rule 2 (line 120). -/
def msg_big_chance : String := "Almeno una big chance creata."

/-- Rationale string of rule 3 (line 121). -/
def msg_goal_ht : String := "Finestra 25–35 con pressione: favorevole a Gol 1T."

/-- Rationale string of rule 4 (line 122). -/
def msg_btts : String := "Pressione simmetrica: BTTS favorito."

/-- Fallback rationale string (line 133). -/
def msg_fallback : String := "Segnali insufficienti: attendere nuovo picco di pressione."

/-- The rationale accumulation of `recommendation` (lines 107 and 119-122):
four independent conditional appends, in program order. -/
def rationale_list (s : LiveStats) : List String :=
  let r : List String := []
  let r := if 9 ≤ s.shots_total ∧ 5 ≤ s.shots_box then r ++ [msg_over25] else r
  let r := if 1 ≤ s.big_chances then r ++ [msg_big_chance] else r
  let r := if 25 ≤ s.minute ∧ s.minute ≤ 35 ∧ 2 ≤ s.corners ∧ 3 ≤ s.shots_box then
    r ++ [msg_goal_ht] else r
  let r := if s.momentum = Momentum.balanced ∧ 2 ≤ s.shots_on then r ++ [msg_btts] else r
  r

/-- `RecOutput` (lines 45-54), with the response dicts flattened into one
field per key. -/
structure RecOutput where
  p_over25 : ℚ
  p_goal_ht : ℚ
  p_btts : ℚ
  p_1x2_1 : ℝ
  p_1x2_X : ℝ
  p_1x2_2 : ℝ
  ev_over25 : Option ℚ
  ev_goal_ht : Option ℚ
  ev_btts : Option ℚ
  min_odds_over25 : ℚ
  min_odds_goal_ht : ℚ
  min_odds_btts : ℚ
  stake_over25 : ℚ
  stake_goal_ht : ℚ
  stake_btts : ℚ
  rationale : List String
  models_used : List String

/-- `recommendation` (lines 103-135). -/
noncomputable def recommendation (s : LiveStats) (odds : OddsInput)
    (models_selected : List String) (all_models : Bool) : RecOutput :=
  let base := heuristic_probs s
  { p_over25 := round3 base.over25
    p_goal_ht := round3 base.goal_ht
    p_btts := round3 base.btts
    p_1x2_1 := round3R base.oneXtwo_1
    p_1x2_X := round3R base.oneXtwo_X
    p_1x2_2 := round3R base.oneXtwo_2
    ev_over25 := Option.map round3 (ev (some base.over25) odds.over25)
    ev_goal_ht := Option.map round3 (ev (some base.goal_ht) odds.over05_ht)
    ev_btts := Option.map round3 (ev (some base.btts) odds.btts)
    min_odds_over25 := 1.70
    min_odds_goal_ht := 1.60
    min_odds_btts := 1.75
    stake_over25 := round3 (0.25 * kelly_fraction (some base.over25) (some (orZero odds.over25)))
    stake_goal_ht := round3 (0.25 * kelly_fraction (some base.goal_ht) (some (orZero odds.over05_ht)))
    stake_btts := round3 (0.20 * kelly_fraction (some base.btts) (some (orZero odds.btts)))
    rationale := if (rationale_list s).isEmpty then [msg_fallback] else rationale_list s
    models_used := if all_models then
        ["bayes_goals", "bivar_poisson", "bayes_xg", "ensemble", "xt", "xpts", "kelly"]
      else models_selected }

/-- The example `LiveStats` of the spec (also the mock returned by the live
endpoint, lines 67-72). -/
def statsExample : LiveStats where
  minute := 27
  score_home := 0
  score_away := 0
  shots_total := 2
  shots_box := 1
  shots_on := 1
  big_chances := 0
  corners := 1
  possession_home := 52
  possession_away := 48
  momentum := Momentum.balanced
  xg_sum := some 0.25

/-- An odds record with no market priced. -/
def noOdds : OddsInput := ⟨none, none, none, none⟩

/-- Stake sizing as claim C1 words it (for comparison with the code): Kelly
fraction `edge/b`, scaled by the safety multiplier FIRST, then the scaled
value clamped to [0, 0.5], then rounded to 3 decimals. -/
def stakeScaleThenClamp (mult p o : ℚ) : ℚ :=
  round3 (max 0 (min 0.5 (mult * ((p - (1 - p) / (o - 1)) / (o - 1)))))

/-- A stats record whose over-2.5 model probability is 0.9
(raw score 0.30 + 0.04*5 + 0.08*5 = 0.90). -/
def statsHighOver : LiveStats where
  minute := 50
  score_home := 0
  score_away := 0
  shots_total := 0
  shots_box := 5
  shots_on := 0
  big_chances := 5
  corners := 0
  possession_home := 50
  possession_away := 50
  momentum := Momentum.home
  xg_sum := none

/-- Odds pricing only the over-2.5 market, at decimal odds 1.5. -/
def oddsLow : OddsInput := ⟨some 1.5, none, none, none⟩

/-- The example stats with a dead-even possession of 0 vs 0. -/
def statsDead : LiveStats :=
  { statsExample with possession_home := 0, possession_away := 0 }

/-- The example stats with a fully skewed possession of 0 vs 100. -/
def statsSkew : LiveStats :=
  { statsExample with possession_home := 0, possession_away := 100 }



/-! ### Helper lemmas -/

lemma round_mono_q {x y : ℚ} (h : x ≤ y) : round x ≤ round y := by
  rw [round_eq, round_eq]
  exact Int.floor_le_floor (by linarith)

lemma round3_mono {x y : ℚ} (h : x ≤ y) : round3 x ≤ round3 y := by
  unfold round3
  have h1 : round (1000 * x) ≤ round (1000 * y) := round_mono_q (by linarith)
  have h2 : ((round (1000 * x) : ℤ) : ℚ) ≤ ((round (1000 * y) : ℤ) : ℚ) := by exact_mod_cast h1
  linarith

lemma round_mono_r {x y : ℝ} (h : x ≤ y) : round x ≤ round y := by
  rw [round_eq, round_eq]
  exact Int.floor_le_floor (by linarith)

lemma round3R_mono {x y : ℝ} (h : x ≤ y) : round3R x ≤ round3R y := by
  unfold round3R
  have h1 : round (1000 * x) ≤ round (1000 * y) := round_mono_r (by linarith)
  have h2 : ((round (1000 * x) : ℤ) : ℝ) ≤ ((round (1000 * y) : ℤ) : ℝ) := by exact_mod_cast h1
  linarith

lemma clip01_mem (x : ℚ) : 0.01 ≤ clip01 x ∧ clip01 x ≤ 0.95 :=
  ⟨le_max_left _ _, max_le (by norm_num) (min_le_left _ _)⟩

lemma clip01R_mem (x : ℝ) : 0.01 ≤ clip01R x ∧ clip01R x ≤ 0.95 :=
  ⟨le_max_left _ _, max_le (by norm_num) (min_le_left _ _)⟩

lemma prob_range_q (x : ℚ) :
    0.01 ≤ round3 (clip01 x) ∧ round3 (clip01 x) ≤ 0.95 ∧
      round3 (clip01 x) ≠ 0 ∧ round3 (clip01 x) ≠ 1 := by
  obtain ⟨h1, h2⟩ := clip01_mem x
  have e1 : round3 0.01 = 0.01 := by norm_num [round3]
  have e2 : round3 0.95 = 0.95 := by norm_num [round3]
  have l1 : (0.01 : ℚ) ≤ round3 (clip01 x) := e1 ▸ round3_mono h1
  have l2 : round3 (clip01 x) ≤ 0.95 := e2 ▸ round3_mono h2
  refine ⟨l1, l2, ?_, ?_⟩ <;> intro hc <;> rw [hc] at l1 l2 <;> norm_num at l1 l2

lemma prob_range_r (x : ℝ) :
    0.01 ≤ round3R (clip01R x) ∧ round3R (clip01R x) ≤ 0.95 ∧
      round3R (clip01R x) ≠ 0 ∧ round3R (clip01R x) ≠ 1 := by
  obtain ⟨h1, h2⟩ := clip01R_mem x
  have e1 : round3R 0.01 = 0.01 := by norm_num [round3R]
  have e2 : round3R 0.95 = 0.95 := by norm_num [round3R]
  have l1 : (0.01 : ℝ) ≤ round3R (clip01R x) := e1 ▸ round3R_mono h1
  have l2 : round3R (clip01R x) ≤ 0.95 := e2 ▸ round3R_mono h2
  refine ⟨l1, l2, ?_, ?_⟩ <;> intro hc <;> rw [hc] at l1 l2 <;> norm_num at l1 l2

lemma kelly_fraction_mem (po oo : Option ℚ) :
    0 ≤ kelly_fraction po oo ∧ kelly_fraction po oo ≤ 0.5 := by
  cases po with
  | none => norm_num [kelly_fraction]
  | some p =>
    cases oo with
    | none => norm_num [kelly_fraction]
    | some o =>
      constructor
      · exact le_max_of_le_left (by norm_num)
      · exact max_le (by norm_num) ((min_le_left _ _).trans (by norm_num))

/-! ### Claim theorems -/

/-- C2: for every `LiveStats` input (and any odds), each of the returned
`p_over25`, `p_goal_ht`, `p_btts` and each of the three `p_1x2` values lies
in the closed interval [0.01, 0.95]; in particular no reported probability
is exactly 0 or 1. -/
theorem C2_probability_range (s : LiveStats) (odds : OddsInput)
    (ms : List String) (am : Bool) :
    (0.01 ≤ (recommendation s odds ms am).p_over25 ∧
      (recommendation s odds ms am).p_over25 ≤ 0.95 ∧
      (recommendation s odds ms am).p_over25 ≠ 0 ∧
      (recommendation s odds ms am).p_over25 ≠ 1) ∧
    (0.01 ≤ (recommendation s odds ms am).p_goal_ht ∧
      (recommendation s odds ms am).p_goal_ht ≤ 0.95 ∧
      (recommendation s odds ms am).p_goal_ht ≠ 0 ∧
      (recommendation s odds ms am).p_goal_ht ≠ 1) ∧
    (0.01 ≤ (recommendation s odds ms am).p_btts ∧
      (recommendation s odds ms am).p_btts ≤ 0.95 ∧
      (recommendation s odds ms am).p_btts ≠ 0 ∧
      (recommendation s odds ms am).p_btts ≠ 1) ∧
    (0.01 ≤ (recommendation s odds ms am).p_1x2_1 ∧
      (recommendation s odds ms am).p_1x2_1 ≤ 0.95 ∧
      (recommendation s odds ms am).p_1x2_1 ≠ 0 ∧
      (recommendation s odds ms am).p_1x2_1 ≠ 1) ∧
    (0.01 ≤ (recommendation s odds ms am).p_1x2_X ∧
      (recommendation s odds ms am).p_1x2_X ≤ 0.95 ∧
      (recommendation s odds ms am).p_1x2_X ≠ 0 ∧
      (recommendation s odds ms am).p_1x2_X ≠ 1) ∧
    (0.01 ≤ (recommendation s odds ms am).p_1x2_2 ∧
      (recommendation s odds ms am).p_1x2_2 ≤ 0.95 ∧
      (recommendation s odds ms am).p_1x2_2 ≠ 0 ∧
      (recommendation s odds ms am).p_1x2_2 ≠ 1) :=
  ⟨prob_range_q (over_raw s), prob_range_q (goal_ht_raw s), prob_range_q (btts_raw s),
    prob_range_r (norm_home s), prob_range_r (norm_draw s), prob_range_r (norm_away s)⟩

/-- C4: the expected value is `p*o - 1` exactly when both the probability
and the market's odds are present, and `none` exactly when either is
absent (so there is no other error condition); at the `recommendation`
level each `ev` entry is `none` precisely when that market's odds are
absent, and otherwise carries the rounded `p*o - 1`. -/
theorem C4_ev_contract (p o : ℚ) (po oo oh ob : Option ℚ)
    (ox : Option (List (String × ℚ))) (s : LiveStats)
    (ms : List String) (am : Bool) :
    ev (some p) (some o) = some (p * o - 1) ∧
    (ev po oo = none ↔ po = none ∨ oo = none) ∧
    (recommendation s ⟨none, oh, ob, ox⟩ ms am).ev_over25 = none ∧
    (recommendation s ⟨oh, none, ob, ox⟩ ms am).ev_goal_ht = none ∧
    (recommendation s ⟨oh, ob, none, ox⟩ ms am).ev_btts = none ∧
    (recommendation s ⟨some o, oh, ob, ox⟩ ms am).ev_over25
      = some (round3 ((heuristic_probs s).over25 * o - 1)) ∧
    (recommendation s ⟨oh, some o, ob, ox⟩ ms am).ev_goal_ht
      = some (round3 ((heuristic_probs s).goal_ht * o - 1)) ∧
    (recommendation s ⟨oh, ob, some o, ox⟩ ms am).ev_btts
      = some (round3 ((heuristic_probs s).btts * o - 1)) := by
  refine ⟨rfl, ?_, rfl, rfl, rfl, rfl, rfl, rfl⟩
  cases po <;> cases oo <;> simp [ev]

/-- C5: the stake fraction is exactly 0 whenever the market's odds are
absent (both at `kelly_fraction`, where a missing argument short-circuits,
and at the `recommendation` level, where Python's `or 0` turns a missing
market price into odds 0), whenever the odds are 0, and whenever the net
odds `b = o - 1` are non-positive. -/
theorem C5_zero_stake (p o : ℚ) (h : o - 1 ≤ 0) (po oh ob : Option ℚ)
    (ox : Option (List (String × ℚ))) (s : LiveStats)
    (ms : List String) (am : Bool) :
    kelly_fraction po none = 0 ∧
    kelly_fraction (some p) (some 0) = 0 ∧
    kelly_fraction (some p) (some o) = 0 ∧
    (recommendation s ⟨none, oh, ob, ox⟩ ms am).stake_over25 = 0 ∧
    (recommendation s ⟨oh, none, ob, ox⟩ ms am).stake_goal_ht = 0 ∧
    (recommendation s ⟨oh, ob, none, ox⟩ ms am).stake_btts = 0 := by
  have hb : ¬ (0 : ℚ) < o - 1 := not_lt.mpr h
  have h0 : ∀ q : ℚ, kelly_fraction (some q) (some 0) = 0 := by
    intro q
    norm_num [kelly_fraction]
  have hgen : ∀ q : ℚ, kelly_fraction (some q) (some o) = 0 := by
    intro q
    simp only [kelly_fraction, hb, if_false]
    norm_num
  refine ⟨?_, h0 p, hgen p, ?_, ?_, ?_⟩
  · cases po <;> norm_num [kelly_fraction]
  all_goals
    simp only [recommendation, orZero, h0]
    norm_num [round3]

/-- C5 witness: the zero-stake cases at `p = 0.5`, `o = 1` (net odds 0) and
the example stats with no odds supplied. -/
theorem C5_zero_stake_witness :
    kelly_fraction none none = 0 ∧
    kelly_fraction (some 0.5) (some 0) = 0 ∧
    kelly_fraction (some 0.5) (some 1) = 0 ∧
    (recommendation statsExample ⟨none, none, none, none⟩ [] true).stake_over25 = 0 ∧
    (recommendation statsExample ⟨none, none, none, none⟩ [] true).stake_goal_ht = 0 ∧
    (recommendation statsExample ⟨none, none, none, none⟩ [] true).stake_btts = 0 :=
  C5_zero_stake 0.5 1 (by norm_num) none none none none statsExample [] true

/-- C6: for every `LiveStats`, the over-2.5 probability of the model is the
raw score `0.30 + 0.02*shots_total + 0.04*shots_box + 0.08*big_chances`
plus 0.20 exactly when `xg_sum` is present and at least 0.9, clamped into
[0.01, 0.95]. -/
theorem C6_over25_formula (s : LiveStats) :
    (heuristic_probs s).over25 =
      clip01 (0.30 + 0.02 * (s.shots_total : ℚ) + 0.04 * (s.shots_box : ℚ)
        + 0.08 * (s.big_chances : ℚ)
        + (match s.xg_sum with
           | some x => if 0.9 ≤ x then 0.20 else 0.0
           | none => 0.0)) := by
  have hxg : (match s.xg_sum with
       | some x => if x ≠ 0 ∧ 0.9 ≤ x then (0.20 : ℚ) else 0.0
       | none => 0.0) =
      (match s.xg_sum with
       | some x => if 0.9 ≤ x then (0.20 : ℚ) else 0.0
       | none => 0.0) := by
    cases s.xg_sum with
    | none => rfl
    | some x =>
      by_cases hx : (0.9 : ℚ) ≤ x
      · have hx0 : x ≠ 0 := by
          intro h0
          rw [h0] at hx
          norm_num at hx
        simp only [if_pos hx, if_pos (And.intro hx0 hx)]
      · simp only [if_neg hx, if_neg (fun hc : x ≠ 0 ∧ (0.9 : ℚ) ≤ x => hx hc.2)]
  show clip01 (over_raw s) = _
  rw [over_raw, hxg]

/-- C7: for every input, the rationale of the recommendation is never
empty; it is exactly the fallback string when none of the four threshold
rules fires, and otherwise exactly the strings of the firing rules in the
fixed order rule 1 (shots_total ≥ 9 and shots_box ≥ 5), rule 2
(big_chances ≥ 1), rule 3 (minute in [25,35], corners ≥ 2, shots_box ≥ 3),
rule 4 (momentum balanced and shots_on ≥ 2), each rule evaluated
independently. -/
theorem C7_rationale (s : LiveStats) (odds : OddsInput) (ms : List String) (am : Bool) :
    (recommendation s odds ms am).rationale ≠ [] ∧
    (recommendation s odds ms am).rationale =
      (if ¬(9 ≤ s.shots_total ∧ 5 ≤ s.shots_box) ∧ ¬(1 ≤ s.big_chances)
          ∧ ¬(25 ≤ s.minute ∧ s.minute ≤ 35 ∧ 2 ≤ s.corners ∧ 3 ≤ s.shots_box)
          ∧ ¬(s.momentum = Momentum.balanced ∧ 2 ≤ s.shots_on) then
        [msg_fallback]
      else
        (if 9 ≤ s.shots_total ∧ 5 ≤ s.shots_box then [msg_over25] else [])
          ++ (if 1 ≤ s.big_chances then [msg_big_chance] else [])
          ++ (if 25 ≤ s.minute ∧ s.minute ≤ 35 ∧ 2 ≤ s.corners ∧ 3 ≤ s.shots_box then
              [msg_goal_ht] else [])
          ++ (if s.momentum = Momentum.balanced ∧ 2 ≤ s.shots_on then [msg_btts] else [])) := by
  by_cases h1 : 9 ≤ s.shots_total ∧ 5 ≤ s.shots_box <;>
    by_cases h2 : 1 ≤ s.big_chances <;>
    by_cases h3 : 25 ≤ s.minute ∧ s.minute ≤ 35 ∧ 2 ≤ s.corners ∧ 3 ≤ s.shots_box <;>
    by_cases h4 : s.momentum = Momentum.balanced ∧ 2 ≤ s.shots_on <;>
    simp [recommendation, rationale_list, h1, h2, h3, h4]

/-- C3 counterexample: on the spec's example input the returned `p_over25`
is 0.38 (the raw score is 0.30 + 0.02*2 + 0.04*1 = 0.38), not approximately
0.36: it differs from 0.36 by 0.02, more than any rounding tolerance. -/
theorem C3_counterexample :
    (recommendation statsExample noOdds [] true).p_over25 = 0.38 ∧
    (recommendation statsExample noOdds [] true).p_over25 ≠ 0.36 ∧
    0.01 < |(recommendation statsExample noOdds [] true).p_over25 - 0.36| := by
  have h : (recommendation statsExample noOdds [] true).p_over25 = 0.38 := by
    norm_num [recommendation, heuristic_probs, round3, clip01, over_raw, statsExample, noOdds]
  rw [h]
  norm_num [abs_of_pos]

/-- C3 amended: on the spec's example input (minute 27, 2 shots, 1 in the
box, 1 on target, no big chances, 1 corner, possession 52/48, balanced
momentum, xg_sum 0.25) with no odds supplied, `p_over25` is 0.38, all three
`ev` entries are `none`, all three `stake_kelly` entries are 0, and the
rationale is exactly the single fallback message. -/
theorem C3_example_amended :
    (recommendation statsExample noOdds [] true).p_over25 = 0.38 ∧
    (recommendation statsExample noOdds [] true).ev_over25 = none ∧
    (recommendation statsExample noOdds [] true).ev_goal_ht = none ∧
    (recommendation statsExample noOdds [] true).ev_btts = none ∧
    (recommendation statsExample noOdds [] true).stake_over25 = 0 ∧
    (recommendation statsExample noOdds [] true).stake_goal_ht = 0 ∧
    (recommendation statsExample noOdds [] true).stake_btts = 0 ∧
    (recommendation statsExample noOdds [] true).rationale = [msg_fallback] := by
  refine ⟨?_, rfl, rfl, rfl, ?_, ?_, ?_, ?_⟩
  · norm_num [recommendation, heuristic_probs, round3, clip01, over_raw, statsExample, noOdds]
  · norm_num [recommendation, orZero, kelly_fraction, round3, noOdds]
  · norm_num [recommendation, orZero, kelly_fraction, round3, noOdds]
  · norm_num [recommendation, orZero, kelly_fraction, round3, noOdds]
  · norm_num [recommendation, rationale_list, statsExample, noOdds]

/-- C1 counterexample: at model probability 0.9 and odds 1.5 the raw Kelly
fraction is 1.4, so the code (clamp to [0, 0.5] inside `kelly_fraction`,
then scale by 0.25) returns stake 0.125, while the claim's order (scale by
0.25, then clamp the scaled value to [0, 0.5]) would give 0.35. -/
theorem C1_counterexample :
    (heuristic_probs statsHighOver).over25 = 0.9 ∧
    (recommendation statsHighOver oddsLow [] true).stake_over25 = 0.125 ∧
    stakeScaleThenClamp 0.25 0.9 1.5 = 0.35 ∧
    (recommendation statsHighOver oddsLow [] true).stake_over25 ≠
      stakeScaleThenClamp 0.25 0.9 1.5 := by
  norm_num [recommendation, heuristic_probs, stakeScaleThenClamp, kelly_fraction,
    orZero, round3, clip01, over_raw, statsHighOver, oddsLow]

/-- C1 amended: for every stats and fully-priced odds with each decimal
odds above 1, the recommended stake of a market is obtained by computing
`edge = p - (1-p)/b` and the Kelly fraction `edge/b` with `b = o - 1`,
clamping that fraction to [0, 0.5] FIRST, then scaling by the market's
safety multiplier (0.25 for over25 and goal_ht, 0.20 for btts), and
rounding the result to 3 decimal places. -/
theorem C1_stake_formula (s : LiveStats) (ms : List String) (am : Bool)
    (o1 o2 o3 : ℚ) (h1 : 1 < o1) (h2 : 1 < o2) (h3 : 1 < o3) :
    (recommendation s ⟨some o1, some o2, some o3, none⟩ ms am).stake_over25 =
      round3 (0.25 * max 0 (min 0.5
        (((heuristic_probs s).over25 - (1 - (heuristic_probs s).over25) / (o1 - 1))
          / (o1 - 1)))) ∧
    (recommendation s ⟨some o1, some o2, some o3, none⟩ ms am).stake_goal_ht =
      round3 (0.25 * max 0 (min 0.5
        (((heuristic_probs s).goal_ht - (1 - (heuristic_probs s).goal_ht) / (o2 - 1))
          / (o2 - 1)))) ∧
    (recommendation s ⟨some o1, some o2, some o3, none⟩ ms am).stake_btts =
      round3 (0.20 * max 0 (min 0.5
        (((heuristic_probs s).btts - (1 - (heuristic_probs s).btts) / (o3 - 1))
          / (o3 - 1)))) := by
  have key : ∀ (p o : ℚ), 1 < o →
      kelly_fraction (some p) (some (orZero (some o))) =
        max 0 (min 0.5 ((p - (1 - p) / (o - 1)) / (o - 1))) := by
    intro p o ho
    have hne : ¬ (o = 0) := by intro h0; rw [h0] at ho; norm_num at ho
    have hb : (0 : ℚ) < o - 1 := by linarith
    simp only [orZero, if_neg hne, kelly_fraction, if_pos hb]
    norm_num
  refine ⟨?_, ?_, ?_⟩
  · show round3 (0.25 * kelly_fraction (some (heuristic_probs s).over25)
        (some (orZero (some o1)))) = _
    rw [key _ _ h1]
  · show round3 (0.25 * kelly_fraction (some (heuristic_probs s).goal_ht)
        (some (orZero (some o2)))) = _
    rw [key _ _ h2]
  · show round3 (0.20 * kelly_fraction (some (heuristic_probs s).btts)
        (some (orZero (some o3)))) = _
    rw [key _ _ h3]

/-- C1 witness: the amended stake formula instantiated at the example
stats with all three markets priced at odds 2. -/
theorem C1_stake_formula_witness :
    (recommendation statsExample ⟨some 2, some 2, some 2, none⟩ [] true).stake_over25 =
      round3 (0.25 * max 0 (min 0.5
        (((heuristic_probs statsExample).over25
          - (1 - (heuristic_probs statsExample).over25) / (2 - 1)) / (2 - 1)))) ∧
    (recommendation statsExample ⟨some 2, some 2, some 2, none⟩ [] true).stake_goal_ht =
      round3 (0.25 * max 0 (min 0.5
        (((heuristic_probs statsExample).goal_ht
          - (1 - (heuristic_probs statsExample).goal_ht) / (2 - 1)) / (2 - 1)))) ∧
    (recommendation statsExample ⟨some 2, some 2, some 2, none⟩ [] true).stake_btts =
      round3 (0.20 * max 0 (min 0.5
        (((heuristic_probs statsExample).btts
          - (1 - (heuristic_probs statsExample).btts) / (2 - 1)) / (2 - 1)))) :=
  C1_stake_formula statsExample [] true 2 2 2 (by norm_num) (by norm_num) (by norm_num)

/-- C8: for every fixed odds `o > 1`, `kelly_fraction` is monotonically
non-decreasing in the probability, and for all (optional) probability and
odds arguments its value lies in [0, 0.5]. -/
theorem C8_kelly_monotone_bounded :
    (∀ o p q : ℚ, 1 < o → p ≤ q →
      kelly_fraction (some p) (some o) ≤ kelly_fraction (some q) (some o)) ∧
    (∀ po oo : Option ℚ, 0 ≤ kelly_fraction po oo ∧ kelly_fraction po oo ≤ 0.5) := by
  constructor
  · intro o p q ho hpq
    have hb : (0 : ℚ) < o - 1 := by linarith
    simp only [kelly_fraction, if_pos hb]
    have h1 : (1 - q) / (o - 1) ≤ (1 - p) / (o - 1) :=
      div_le_div_of_nonneg_right (by linarith) hb.le
    have h2 : (p - (1 - p) / (o - 1)) / (o - 1) ≤ (q - (1 - q) / (o - 1)) / (o - 1) :=
      div_le_div_of_nonneg_right (by linarith) hb.le
    exact max_le_max (le_refl _) (min_le_min (le_refl _) h2)
  · exact kelly_fraction_mem

/-- C8 witness: monotonicity at `o = 2`, `p = 0.3 ≤ q = 0.4`, and the
[0, 0.5] bounds at the same point. -/
theorem C8_kelly_monotone_bounded_witness :
    kelly_fraction (some 0.3) (some 2) ≤ kelly_fraction (some 0.4) (some 2) ∧
    0 ≤ kelly_fraction (some 0.3) (some 2) ∧ kelly_fraction (some 0.3) (some 2) ≤ 0.5 :=
  ⟨C8_kelly_monotone_bounded.1 2 0.3 0.4 (by norm_num) (by norm_num),
    C8_kelly_monotone_bounded.2 (some 0.3) (some 2)⟩

/-- C9: for every stats and odds, each returned stake is bounded by the
market's safety multiplier times the 0.5 clamp applied inside
`kelly_fraction`: at most 0.125 for over25 and goal_ht, at most 0.10 for
btts — strictly tighter than the 0.5 clamp itself. -/
theorem C9_effective_stake_bound (s : LiveStats) (odds : OddsInput)
    (ms : List String) (am : Bool) :
    (recommendation s odds ms am).stake_over25 ≤ 0.125 ∧
    (recommendation s odds ms am).stake_goal_ht ≤ 0.125 ∧
    (recommendation s odds ms am).stake_btts ≤ 0.10 ∧
    (0.125 : ℚ) < 0.5 ∧ (0.10 : ℚ) < 0.5 := by
  have hr125 : round3 0.125 = 0.125 := by norm_num [round3]
  have hr10 : round3 0.10 = 0.10 := by norm_num [round3]
  have key : ∀ (mult c : ℚ) (po oo : Option ℚ), 0 ≤ mult → mult * 0.5 ≤ c →
      round3 (mult * kelly_fraction po oo) ≤ round3 c := by
    intro mult c po oo hm hc
    apply round3_mono
    have := (kelly_fraction_mem po oo).2
    nlinarith [(kelly_fraction_mem po oo).1]
  refine ⟨?_, ?_, ?_, by norm_num, by norm_num⟩
  · exact le_of_le_of_eq (key 0.25 0.125 _ _ (by norm_num) (by norm_num)) hr125
  · exact le_of_le_of_eq (key 0.25 0.125 _ _ (by norm_num) (by norm_num)) hr125
  · exact le_of_le_of_eq (key 0.20 0.10 _ _ (by norm_num) (by norm_num)) hr10

/-! ### Real-analytic helpers for the 1X2 distribution -/

lemma exp_five_gt : (148.41 : ℝ) < Real.exp 5 := by
  have h5 : Real.exp 5 = Real.exp 1 ^ 5 := by
    rw [← Real.exp_nat_mul]
    norm_num
  have h1 : (2.7182818283 : ℝ) ^ 5 < Real.exp 1 ^ 5 :=
    pow_lt_pow_left₀ Real.exp_one_gt_d9 (by norm_num) (by norm_num)
  have h2 : (148.41 : ℝ) < (2.7182818283 : ℝ) ^ 5 := by norm_num
  linarith [h5 ▸ lt_trans h2 h1]

lemma exp_five_lt : Real.exp 5 < (148.42 : ℝ) := by
  have h5 : Real.exp 5 = Real.exp 1 ^ 5 := by
    rw [← Real.exp_nat_mul]
    norm_num
  have h1 : Real.exp 1 ^ 5 < (2.7182818286 : ℝ) ^ 5 :=
    pow_lt_pow_left₀ Real.exp_one_lt_d9 (Real.exp_pos 1).le (by norm_num)
  have h2 : (2.7182818286 : ℝ) ^ 5 < 148.42 := by norm_num
  linarith [h5 ▸ lt_trans h1 h2]

lemma sigmoid_pos (x : ℝ) : 0 < sigmoid x := by
  unfold sigmoid
  positivity

lemma sigmoid_lt_one (x : ℝ) : sigmoid x < 1 := by
  unfold sigmoid
  rw [div_lt_one (by positivity)]
  linarith [Real.exp_pos (-x)]

lemma sigmoid_ge_of_ge (x : ℝ) (hx : -5 ≤ x) : 1 / 150 ≤ sigmoid x := by
  unfold sigmoid
  have h1 : Real.exp (-x) ≤ Real.exp 5 := Real.exp_le_exp.mpr (by linarith)
  have h2 : Real.exp (-x) < 148.42 := lt_of_le_of_lt h1 exp_five_lt
  rw [div_le_div_iff₀ (by norm_num) (by positivity)]
  nlinarith

lemma strength_home_pos (s : LiveStats) : 0 < strength_home s := sigmoid_pos _

lemma strength_away_pos (s : LiveStats) : 0 < strength_away s := sigmoid_pos _

lemma oneXtwo_total_pos (s : LiveStats) : 0 < oneXtwo_total s := by
  unfold oneXtwo_total
  have h1 := strength_home_pos s
  have h2 := strength_away_pos s
  norm_num
  linarith

lemma norm_triple_sum (s : LiveStats) :
    norm_home s + norm_draw s + norm_away s = 1 := by
  have hT := oneXtwo_total_pos s
  unfold norm_home norm_draw norm_away
  rw [div_add_div_same, div_add_div_same, div_eq_one_iff_eq hT.ne']
  unfold oneXtwo_total
  ring

lemma strength_home_lt_one (s : LiveStats) : strength_home s < 1 := sigmoid_lt_one _

lemma strength_away_lt_one (s : LiveStats) : strength_away s < 1 := sigmoid_lt_one _

lemma norm_home_lt (s : LiveStats) : norm_home s < 0.95 := by
  have hT := oneXtwo_total_pos s
  rw [norm_home, div_lt_iff₀ hT]
  have h1 := strength_home_lt_one s
  have h2 := strength_away_pos s
  unfold oneXtwo_total
  norm_num
  linarith

lemma norm_away_lt (s : LiveStats) : norm_away s < 0.95 := by
  have hT := oneXtwo_total_pos s
  rw [norm_away, div_lt_iff₀ hT]
  have h1 := strength_away_lt_one s
  have h2 := strength_home_pos s
  unfold oneXtwo_total
  norm_num
  linarith

lemma poss_arg_ge (n : ℤ) (hn : 0 ≤ n) : (-5 : ℝ) ≤ ((n : ℝ) - 50) / 10 := by
  rw [le_div_iff₀ (by norm_num)]
  have h : (0 : ℝ) ≤ (n : ℝ) := by exact_mod_cast hn
  linarith

lemma norm_draw_lt (s : LiveStats) (h1 : 0 ≤ s.possession_home)
    (h3 : 0 ≤ s.possession_away) : norm_draw s < 0.95 := by
  have hT := oneXtwo_total_pos s
  have e1 : 1 / 150 ≤ strength_home s := sigmoid_ge_of_ge _ (poss_arg_ge _ h1)
  have e2 : 1 / 150 ≤ strength_away s := sigmoid_ge_of_ge _ (poss_arg_ge _ h3)
  rw [norm_draw, div_lt_iff₀ hT]
  unfold oneXtwo_total
  norm_num
  linarith

lemma clip01R_eq_max (x : ℝ) (h : x ≤ 0.95) : clip01R x = max 0.01 x := by
  unfold clip01R
  rw [min_eq_right h]

/-- C10 amended: for possessions in [0, 100], each of the three normalised
1X2 values before clamping is strictly below 0.95, so the upper clamp never
alters a value (each clamped entry equals `max 0.01` of its normalised
value); only the 0.01 floor can raise values, hence the clamped
distribution produced by `heuristic_probs` — before the final 3-decimal
rounding of the response — sums to at least 1, and strictly more than 1
for possession 0 vs 100.  (The returned, rounded values can sum slightly
below 1; see the counterexample.) -/
theorem C10_oneXtwo_clamped_sum :
    (∀ s : LiveStats, 0 ≤ s.possession_home → s.possession_home ≤ 100 →
      0 ≤ s.possession_away → s.possession_away ≤ 100 →
      (norm_home s < 0.95 ∧ norm_draw s < 0.95 ∧ norm_away s < 0.95) ∧
      ((heuristic_probs s).oneXtwo_1 = max 0.01 (norm_home s) ∧
        (heuristic_probs s).oneXtwo_X = max 0.01 (norm_draw s) ∧
        (heuristic_probs s).oneXtwo_2 = max 0.01 (norm_away s)) ∧
      1 ≤ (heuristic_probs s).oneXtwo_1 + (heuristic_probs s).oneXtwo_X
        + (heuristic_probs s).oneXtwo_2) ∧
    1 < (heuristic_probs statsSkew).oneXtwo_1 + (heuristic_probs statsSkew).oneXtwo_X
      + (heuristic_probs statsSkew).oneXtwo_2 := by
  have main : ∀ s : LiveStats, 0 ≤ s.possession_home → 0 ≤ s.possession_away →
      (norm_home s < 0.95 ∧ norm_draw s < 0.95 ∧ norm_away s < 0.95) ∧
      ((heuristic_probs s).oneXtwo_1 = max 0.01 (norm_home s) ∧
        (heuristic_probs s).oneXtwo_X = max 0.01 (norm_draw s) ∧
        (heuristic_probs s).oneXtwo_2 = max 0.01 (norm_away s)) ∧
      1 ≤ (heuristic_probs s).oneXtwo_1 + (heuristic_probs s).oneXtwo_X
        + (heuristic_probs s).oneXtwo_2 := by
    intro s h1 h3
    have b1 := norm_home_lt s
    have bX := norm_draw_lt s h1 h3
    have b2 := norm_away_lt s
    have e1 : (heuristic_probs s).oneXtwo_1 = max 0.01 (norm_home s) :=
      clip01R_eq_max _ b1.le
    have eX : (heuristic_probs s).oneXtwo_X = max 0.01 (norm_draw s) :=
      clip01R_eq_max _ bX.le
    have e2 : (heuristic_probs s).oneXtwo_2 = max 0.01 (norm_away s) :=
      clip01R_eq_max _ b2.le
    refine ⟨⟨b1, bX, b2⟩, ⟨e1, eX, e2⟩, ?_⟩
    rw [e1, eX, e2]
    have m1 := le_max_right (0.01 : ℝ) (norm_home s)
    have mX := le_max_right (0.01 : ℝ) (norm_draw s)
    have m2 := le_max_right (0.01 : ℝ) (norm_away s)
    linarith [norm_triple_sum s]
  constructor
  · intro s h1 _ h3 _
    exact main s h1 h3
  · obtain ⟨⟨b1, bX, b2⟩, ⟨e1, eX, e2⟩, _⟩ :=
      main statsSkew (by norm_num [statsSkew, statsExample]) (by norm_num [statsSkew, statsExample])
    have hsmall : norm_home statsSkew < 0.01 := by
      have sh_eq : strength_home statsSkew = sigmoid (-5) := by
        norm_num [strength_home, statsSkew, statsExample]
      have sa_eq : strength_away statsSkew = sigmoid 5 := by
        norm_num [strength_away, statsSkew, statsExample]
      have ha_hi : sigmoid (-5) < 0.0068 := by
        unfold sigmoid
        rw [div_lt_iff₀ (by positivity)]
        norm_num
        nlinarith [exp_five_gt]
      have ha_pos : 0 < sigmoid (-5) := sigmoid_pos _
      have hb_lo : (0.5 : ℝ) < sigmoid 5 := by
        unfold sigmoid
        have hlt : Real.exp (-5) < 1 := by
          have h := Real.exp_lt_exp.mpr (show (-5 : ℝ) < 0 by norm_num)
          rwa [Real.exp_zero] at h
        rw [lt_div_iff₀ (by positivity)]
        linarith
      have hb_hi := sigmoid_lt_one 5
      have hT : (0.7 : ℝ) < oneXtwo_total statsSkew := by
        unfold oneXtwo_total
        rw [sh_eq, sa_eq]
        norm_num
        linarith
      rw [norm_home, sh_eq, div_lt_iff₀ (by linarith)]
      nlinarith
    have hfloor : (heuristic_probs statsSkew).oneXtwo_1 = 0.01 := by
      rw [e1, max_eq_left hsmall.le]
    have mX := le_max_right (0.01 : ℝ) (norm_draw statsSkew)
    have m2 := le_max_right (0.01 : ℝ) (norm_away statsSkew)
    rw [hfloor, eX, e2]
    linarith [norm_triple_sum statsSkew]

/-- C10 witness: the clamped-distribution facts instantiated at the example
stats (possession 52 vs 48). -/
theorem C10_oneXtwo_clamped_sum_witness :
    (norm_home statsExample < 0.95 ∧ norm_draw statsExample < 0.95 ∧
      norm_away statsExample < 0.95) ∧
    ((heuristic_probs statsExample).oneXtwo_1 = max 0.01 (norm_home statsExample) ∧
      (heuristic_probs statsExample).oneXtwo_X = max 0.01 (norm_draw statsExample) ∧
      (heuristic_probs statsExample).oneXtwo_2 = max 0.01 (norm_away statsExample)) ∧
    1 ≤ (heuristic_probs statsExample).oneXtwo_1 + (heuristic_probs statsExample).oneXtwo_X
      + (heuristic_probs statsExample).oneXtwo_2 :=
  C10_oneXtwo_clamped_sum.1 statsExample (by norm_num [statsExample])
    (by norm_num [statsExample]) (by norm_num [statsExample]) (by norm_num [statsExample])

/-- C10 counterexample: at possession 0 vs 0 (within the claimed bounds)
the three returned `p_1x2` values — rounded to 3 decimals — are 0.031,
0.937 and 0.031, summing to 0.999, strictly below 1. -/
theorem C10_counterexample :
    (0 ≤ statsDead.possession_home ∧ statsDead.possession_home ≤ 100 ∧
      0 ≤ statsDead.possession_away ∧ statsDead.possession_away ≤ 100) ∧
    (recommendation statsDead noOdds [] true).p_1x2_1
      + (recommendation statsDead noOdds [] true).p_1x2_X
      + (recommendation statsDead noOdds [] true).p_1x2_2 = 0.999 ∧
    ¬ (1 ≤ (recommendation statsDead noOdds [] true).p_1x2_1
        + (recommendation statsDead noOdds [] true).p_1x2_X
        + (recommendation statsDead noOdds [] true).p_1x2_2) := by
  have hE1 := exp_five_gt
  have hE2 := exp_five_lt
  have sh_eq : strength_home statsDead = sigmoid (-5) := by
    norm_num [strength_home, statsDead, statsExample]
  have sa_eq : strength_away statsDead = sigmoid (-5) := by
    norm_num [strength_away, statsDead, statsExample]
  have hEp : (0 : ℝ) < 1 + Real.exp 5 := by positivity
  have sig_eq : sigmoid (-5) = 1 / (1 + Real.exp 5) := by
    unfold sigmoid
    norm_num
  have ha_lo : (0.006692 : ℝ) < sigmoid (-5) := by
    rw [sig_eq, lt_div_iff₀ hEp]
    nlinarith
  have ha_hi : sigmoid (-5) < 0.0066931 := by
    rw [sig_eq, div_lt_iff₀ hEp]
    nlinarith
  have hT_eq : oneXtwo_total statsDead = sigmoid (-5) + sigmoid (-5) + 0.20 := by
    unfold oneXtwo_total
    rw [sh_eq, sa_eq]
  have hT_lo : (0.21338 : ℝ) < oneXtwo_total statsDead := by
    rw [hT_eq]
    norm_num
    linarith
  have hT_hi : oneXtwo_total statsDead < 0.2133862 := by
    rw [hT_eq]
    norm_num
    linarith
  have hT_pos : (0 : ℝ) < oneXtwo_total statsDead := by linarith
  have hn1_lo : (0.0305 : ℝ) ≤ norm_home statsDead := by
    rw [norm_home, sh_eq, le_div_iff₀ hT_pos]
    nlinarith
  have hn1_hi : norm_home statsDead < 0.0315 := by
    rw [norm_home, sh_eq, div_lt_iff₀ hT_pos]
    nlinarith
  have hn2_lo : (0.0305 : ℝ) ≤ norm_away statsDead := by
    rw [norm_away, sa_eq, le_div_iff₀ hT_pos]
    nlinarith
  have hn2_hi : norm_away statsDead < 0.0315 := by
    rw [norm_away, sa_eq, div_lt_iff₀ hT_pos]
    nlinarith
  have hnX_lo : (0.9365 : ℝ) ≤ norm_draw statsDead := by
    rw [norm_draw, le_div_iff₀ hT_pos]
    nlinarith
  have hnX_hi : norm_draw statsDead < 0.9375 := by
    rw [norm_draw, div_lt_iff₀ hT_pos]
    nlinarith
  have c1 : clip01R (norm_home statsDead) = norm_home statsDead := by
    unfold clip01R
    rw [min_eq_right (by linarith), max_eq_right (by linarith)]
  have c2 : clip01R (norm_away statsDead) = norm_away statsDead := by
    unfold clip01R
    rw [min_eq_right (by linarith), max_eq_right (by linarith)]
  have cX : clip01R (norm_draw statsDead) = norm_draw statsDead := by
    unfold clip01R
    rw [min_eq_right (by linarith), max_eq_right (by linarith)]
  have r1 : round (1000 * norm_home statsDead) = 31 := by
    rw [round_eq, Int.floor_eq_iff]
    constructor
    · push_cast
      linarith
    · push_cast
      linarith
  have r2 : round (1000 * norm_away statsDead) = 31 := by
    rw [round_eq, Int.floor_eq_iff]
    constructor
    · push_cast
      linarith
    · push_cast
      linarith
  have rX : round (1000 * norm_draw statsDead) = 937 := by
    rw [round_eq, Int.floor_eq_iff]
    constructor
    · push_cast
      linarith
    · push_cast
      linarith
  have f1 : (recommendation statsDead noOdds [] true).p_1x2_1 = 0.031 := by
    show round3R (clip01R (norm_home statsDead)) = 0.031
    rw [round3R, c1, r1]
    norm_num
  have f2 : (recommendation statsDead noOdds [] true).p_1x2_2 = 0.031 := by
    show round3R (clip01R (norm_away statsDead)) = 0.031
    rw [round3R, c2, r2]
    norm_num
  have fX : (recommendation statsDead noOdds [] true).p_1x2_X = 0.937 := by
    show round3R (clip01R (norm_draw statsDead)) = 0.937
    rw [round3R, cX, rX]
    norm_num
  refine ⟨by norm_num [statsDead, statsExample], ?_, ?_⟩
  · rw [f1, f2, fX]
    norm_num
  · rw [f1, f2, fX]
    norm_num
